import Mathlib

/-!
Verification development for the typefusion repository
(packages/typefusion/src/db/postgres/types.ts and src/cli.ts).

Shallow embedding: TypeScript classes become Lean structures, methods
become functions, the `Effect` success/failure channel becomes `Except`,
JavaScript `undefined`/optional values become `Option`, and the JS
mutation performed by the fluent `PgType` methods is modelled explicitly
with a small heap of references (see `Heap` below).
-/

/-! ## PgType (types.ts, lines 15-52) -/

/-- Embedding of the `PgType` class state: the private fields
`_nullable : boolean` and `_postgresType : string`.  The phantom type
parameter `T` of the TypeScript class has no runtime content
(`this._type = "PgType" as T`) and is dropped. -/
structure PgType where
  _nullable : Bool
  _postgresType : String
deriving DecidableEq, Repr

/-- Embedding of the constructor `new PgType(postgresType)`: it sets
`_nullable = true` and stores the postgres type string. -/
def PgType.new (postgresType : String) : PgType :=
  { _nullable := true, _postgresType := postgresType }

/-- Value-level result of `notNull()`: the object's state after the call
(the method sets `this._nullable = false` and returns `this`). -/
def PgType.notNull (t : PgType) : PgType :=
  { t with _nullable := false }

/-- Value-level result of `nullable()`: the object's state after the call
(the method sets `this._nullable = true` and returns `this`). -/
def PgType.nullable (t : PgType) : PgType :=
  { t with _nullable := true }

/-- Embedding of `getNullable()`. -/
def PgType.getNullable (t : PgType) : Bool :=
  t._nullable

/-- Embedding of `getPostgresType()`. -/
def PgType.getPostgresType (t : PgType) : String :=
  t._postgresType

/-- Embedding of `toString()`:
the template literal is the postgres type string followed by a single
space when `_nullable` holds and by the string " NOT NULL" otherwise. -/
def PgType.toString (t : PgType) : String :=
  t._postgresType ++ (if t._nullable then " " else " NOT NULL")

/-! ### JS reference semantics for the fluent methods

In the source, `notNull()` and `nullable()` assign to `this._nullable`
and return `this`: the caller's reference and the returned reference are
the same object.  To state claims about mutation we model a heap of
`PgType` objects addressed by `Nat` references. -/

/-- Heap of `PgType` objects addressed by natural-number references. -/
def Heap : Type := Nat → PgType

/-- Overwriting the object stored at reference `r`. -/
def Heap.update (h : Heap) (r : Nat) (v : PgType) : Heap :=
  fun r2 => if r2 = r then v else h r2

/-- Method call `h[r].notNull()` under JS semantics: the object at `r` is
mutated in place (`this._nullable = false`) and the returned reference is
`this`, i.e. `r` itself. -/
def Heap.notNullM (h : Heap) (r : Nat) : Heap × Nat :=
  (h.update r ((h r).notNull), r)

/-- Method call `h[r].nullable()` under JS semantics: the object at `r` is
mutated in place (`this._nullable = true`) and the returned reference is
`this`, i.e. `r` itself. -/
def Heap.nullableM (h : Heap) (r : Nat) : Heap × Nat :=
  (h.update r ((h r).nullable), r)

/-! ## The `pgType` record of factories (types.ts, lines 54-90)

Each entry is a thunk (or, for `char`/`varchar`, a function of a length)
that calls the `PgType` constructor with a fixed postgres type string. -/

def pgType.text (_ : Unit) : PgType := PgType.new "text"

def pgType.integer (_ : Unit) : PgType := PgType.new "integer"

def pgType.boolean (_ : Unit) : PgType := PgType.new "boolean"

def pgType.date (_ : Unit) : PgType := PgType.new "date"

def pgType.dateTime (_ : Unit) : PgType := PgType.new "timestamp"

def pgType.bigint (_ : Unit) : PgType := PgType.new "bigint"

def pgType.smallint (_ : Unit) : PgType := PgType.new "smallint"

def pgType.real (_ : Unit) : PgType := PgType.new "real"

def pgType.doublePrecision (_ : Unit) : PgType := PgType.new "double precision"

def pgType.smallserial (_ : Unit) : PgType := PgType.new "smallserial"

def pgType.serial (_ : Unit) : PgType := PgType.new "serial"

def pgType.bigserial (_ : Unit) : PgType := PgType.new "bigserial"

def pgType.numeric (_ : Unit) : PgType := PgType.new "numeric"

def pgType.decimal (_ : Unit) : PgType := PgType.new "decimal"

def pgType.money (_ : Unit) : PgType := PgType.new "money"

def pgType.char (n : Nat) : PgType := PgType.new ("char(" ++ Nat.repr n ++ ")")

def pgType.varchar (n : Nat) : PgType := PgType.new ("varchar(" ++ Nat.repr n ++ ")")

def pgType.time (_ : Unit) : PgType := PgType.new "time"

def pgType.interval (_ : Unit) : PgType := PgType.new "interval"

def pgType.point (_ : Unit) : PgType := PgType.new "point"

def pgType.line (_ : Unit) : PgType := PgType.new "line"

def pgType.lseg (_ : Unit) : PgType := PgType.new "lseg"

def pgType.box (_ : Unit) : PgType := PgType.new "box"

def pgType.polygon (_ : Unit) : PgType := PgType.new "polygon"

def pgType.circle (_ : Unit) : PgType := PgType.new "circle"

def pgType.inet (_ : Unit) : PgType := PgType.new "inet"

def pgType.cidr (_ : Unit) : PgType := PgType.new "cidr"

def pgType.macaddr (_ : Unit) : PgType := PgType.new "macaddr"

def pgType.tsvector (_ : Unit) : PgType := PgType.new "tsvector"

def pgType.tsquery (_ : Unit) : PgType := PgType.new "tsquery"

def pgType.uuid (_ : Unit) : PgType := PgType.new "uuid"

def pgType.json (_ : Unit) : PgType := PgType.new "json"

def pgType.jsonb (_ : Unit) : PgType := PgType.new "jsonb"

def pgType.xml (_ : Unit) : PgType := PgType.new "xml"

def pgType.bytea (_ : Unit) : PgType := PgType.new "bytea"

/-! ## Runtime values and `valueToPostgresType` (types.ts, lines 92-136) -/

/-- Embedding of the tagged error
`UnsupportedJSTypePostgresConversionError` with its `cause` and `message`
payload; the code always constructs it with `cause: null`. -/
structure UnsupportedJSTypePostgresConversionError where
  cause : Option Unit
  message : String
deriving DecidableEq, Repr

/-- Runtime JavaScript values as far as `valueToPostgresType` inspects
them: `null`, `undefined`, `Date` instances, other objects, strings,
bigints, numbers (JS numbers are IEEE doubles; every finite double is a
rational, so we carry a rational and `Number.isInteger` becomes
denominator one), booleans, functions and symbols. -/
inductive JSValue where
  | null
  | undefined
  | date
  | object
  | string (s : String)
  | bigint (n : Int)
  | number (q : ℚ)
  | boolean (b : Bool)
  | function
  | symbol
deriving DecidableEq, Repr

/-- Result of the `typeof` operator on a `JSValue` (`typeof null` and
`typeof` of a `Date` are both "object", but those cases are intercepted
earlier in `valueToPostgresType`). -/
def typeofValue : JSValue → String
  | .null => "object"
  | .undefined => "undefined"
  | .date => "object"
  | .object => "object"
  | .string _ => "string"
  | .bigint _ => "bigint"
  | .number _ => "number"
  | .boolean _ => "boolean"
  | .function => "function"
  | .symbol => "symbol"

/-- Embedding of `valueToPostgresType` (types.ts lines 100-136); the
`Effect` success/failure channel becomes `Except`.  The source first
tests `value === null || value === undefined`, then `value instanceof
Date`, then switches on `typeof value`; with the disjoint constructors of
`JSValue` this is the match below.  The number branch tests
`Number.isInteger(value)` (denominator one) and then the signed 32-bit
bounds `-2147483648 <= value && value <= 2147483647`; the `default`
branch of the switch (reached exactly for functions and symbols) fails
with the error whose message interpolates `typeof value`. -/
def valueToPostgresType (value : JSValue) :
    Except UnsupportedJSTypePostgresConversionError String :=
  match value with
  | .null => .ok "TEXT"
  | .undefined => .ok "TEXT"
  | .date => .ok "TIMESTAMP WITH TIME ZONE"
  | .object => .ok "JSONB"
  | .string _ => .ok "TEXT"
  | .bigint _ => .ok "BIGINT"
  | .number q =>
    if q.den = 1 then
      if -2147483648 ≤ q ∧ q ≤ 2147483647 then .ok "INTEGER"
      else .ok "BIGINT"
    else .ok "DOUBLE PRECISION"
  | .boolean _ => .ok "BOOLEAN"
  | .function =>
    .error { cause := none
           , message := "Unsupported type for value provided in script result: "
               ++ typeofValue .function }
  | .symbol =>
    .error { cause := none
           , message := "Unsupported type for value provided in script result: "
               ++ typeofValue .symbol }

/-! ## `postgresIdColumn` (types.ts, lines 138-142) -/

/-- JavaScript `a || b` for `a : string | undefined`: `undefined` and the
empty string are falsy, any other string is returned unchanged. -/
def jsOrElse (a : Option String) (b : String) : String :=
  match a with
  | none => b
  | some s => if s = "" then b else s

/-- Embedding of `postgresIdColumn(type?)`:
`idType = type?.getPostgresType() || "BIGINT GENERATED ALWAYS AS
IDENTITY"` followed by the template literal. -/
def postgresIdColumn (type : Option PgType) : String :=
  let idType := jsOrElse (type.map PgType.getPostgresType)
      "BIGINT GENERATED ALWAYS AS IDENTITY"
  "id " ++ idType ++ " PRIMARY KEY"

/-! ## CLI entry point (cli.ts, lines 8-32) -/

/-- Argument record passed by the CLI handler to the core `typefusion`
entry point. -/
structure TypefusionConfig where
  directory : String
  ignoreGlob : List String
  verbose : Bool
  alwaysPrintExecutionGraph : Bool
  dryRun : Bool
deriving DecidableEq, Repr

/-- Embedding of the handler inside `Command.make` (cli.ts lines 21-32):
`directory` is a required positional argument, while `ignoreGlob`,
`verbose` and `dry-run` are optional (`Options.optional`), so the handler
receives them as `Option` values and applies `Option.getOrElse` with
`[]`, `false` and `false`; `alwaysPrintExecutionGraph` is hard-coded to
`true`. -/
def commandHandler (directory : String) (ignoreGlob : Option (List String))
    (verbose : Option Bool) (dryRun : Option Bool) : TypefusionConfig :=
  { directory := directory
  , ignoreGlob := ignoreGlob.getD []
  , verbose := verbose.getD false
  , alwaysPrintExecutionGraph := true
  , dryRun := dryRun.getD false }

/-! ## Claims -/

/-- Claim C1: for every numeric value inspected by `valueToPostgresType`,
an integral value (denominator one) inside the signed 32-bit range maps
to "INTEGER", an integral value outside that range maps to "BIGINT",
and a non-integral value maps to "DOUBLE PRECISION"; in
particular 5000000000 maps to "BIGINT" and 3.14 to "DOUBLE PRECISION". -/
theorem valueToPostgresType_number_spec (q : ℚ) :
    (q.den = 1 → -2147483648 ≤ q → q ≤ 2147483647 →
      valueToPostgresType (.number q) = .ok "INTEGER") ∧
    (q.den = 1 → ¬ (-2147483648 ≤ q ∧ q ≤ 2147483647) →
      valueToPostgresType (.number q) = .ok "BIGINT") ∧
    (q.den ≠ 1 → valueToPostgresType (.number q) = .ok "DOUBLE PRECISION") ∧
    valueToPostgresType (.number 5000000000) = .ok "BIGINT" ∧
    valueToPostgresType (.number 3.14) = .ok "DOUBLE PRECISION" := by
  refine ⟨?_, ?_, ?_, by rfl, by norm_num [valueToPostgresType]⟩
  · intro h1 h2 h3
    simp [valueToPostgresType, h1, h2, h3]
  · intro h1 h2
    simp [valueToPostgresType, h1, h2]
  · intro h1
    simp [valueToPostgresType, h1]

/-- Witness for C1: 7 is integral and in range (hence "INTEGER"),
5000000000 is integral and out of range (hence "BIGINT"), 157/50 is
non-integral (hence "DOUBLE PRECISION"). -/
theorem valueToPostgresType_number_spec_witness :
    ((7 : ℚ).den = 1 ∧ -2147483648 ≤ (7 : ℚ) ∧ (7 : ℚ) ≤ 2147483647 ∧
      valueToPostgresType (.number 7) = .ok "INTEGER") ∧
    ((5000000000 : ℚ).den = 1 ∧
      ¬ (-2147483648 ≤ (5000000000 : ℚ) ∧ (5000000000 : ℚ) ≤ 2147483647) ∧
      valueToPostgresType (.number 5000000000) = .ok "BIGINT") ∧
    ((mkRat 157 50).den ≠ 1 ∧
      valueToPostgresType (.number (mkRat 157 50)) = .ok "DOUBLE PRECISION") :=
  ⟨⟨by decide, by decide, by decide,
      (valueToPostgresType_number_spec 7).1 (by decide) (by decide) (by decide)⟩,
   ⟨by decide, by decide,
      (valueToPostgresType_number_spec 5000000000).2.1 (by decide) (by decide)⟩,
   ⟨by decide,
      (valueToPostgresType_number_spec (mkRat 157 50)).2.2.1 (by decide)⟩⟩

/-- Claim C2, counterexample: the error raised for a function value is a
fixed string interpolating only `typeof value`; `valueToPostgresType`
receives no field name, so the error cannot name the field — concretely,
for a function value held in a field called "zzz" the message does not
contain "zzz". -/
theorem valueToPostgresType_error_no_field :
    valueToPostgresType .function =
      .error { cause := none
             , message := "Unsupported type for value provided in script result: function" } ∧
    ¬ List.IsInfix "zzz".data
        "Unsupported type for value provided in script result: function".data :=
  ⟨rfl, by decide⟩

/-- Claim C2 as amended: for a function or symbol value,
`valueToPostgresType` fails with `UnsupportedJSTypePostgresConversionError`
whose message names the offending kind (the interpolated `typeof value`);
the field is not named, since the function receives only the value. -/
theorem valueToPostgresType_unsupported_kind (v : JSValue)
    (h : v = .function ∨ v = .symbol) :
    valueToPostgresType v =
      .error { cause := none
             , message := "Unsupported type for value provided in script result: "
                 ++ typeofValue v } ∧
    List.IsInfix (typeofValue v).data
      ("Unsupported type for value provided in script result: "
        ++ typeofValue v).data := by
  rcases h with h | h <;> subst h <;> exact ⟨rfl, by decide⟩

/-- Witness for the amended C2 at the symbol value. -/
theorem valueToPostgresType_unsupported_kind_witness :
    (JSValue.symbol = .function ∨ JSValue.symbol = .symbol) ∧
    (valueToPostgresType .symbol =
      .error { cause := none
             , message := "Unsupported type for value provided in script result: "
                 ++ typeofValue .symbol } ∧
     List.IsInfix (typeofValue .symbol).data
       ("Unsupported type for value provided in script result: "
         ++ typeofValue .symbol).data) :=
  ⟨Or.inr rfl, valueToPostgresType_unsupported_kind .symbol (Or.inr rfl)⟩

/-- Claim C3: a null or undefined value maps to "TEXT". -/
theorem valueToPostgresType_null_undefined :
    valueToPostgresType .null = .ok "TEXT" ∧
    valueToPostgresType .undefined = .ok "TEXT" :=
  ⟨rfl, rfl⟩

/-- Claim C4: a Date instance maps to "TIMESTAMP WITH TIME ZONE", an
object to "JSONB", a string to "TEXT" and a boolean to "BOOLEAN". -/
theorem valueToPostgresType_supported_kinds :
    valueToPostgresType .date = .ok "TIMESTAMP WITH TIME ZONE" ∧
    valueToPostgresType .object = .ok "JSONB" ∧
    (∀ s : String, valueToPostgresType (.string s) = .ok "TEXT") ∧
    (∀ b : Bool, valueToPostgresType (.boolean b) = .ok "BOOLEAN") :=
  ⟨rfl, rfl, fun _ => rfl, fun _ => rfl⟩

/-- Claim C5, counterexample: `postgresIdColumn` computes the id type
with the JS `||` operator, which treats the empty string as absent; for a
supplied type whose postgres type string is empty, the column is the
default identity column, not "id <its postgres type> PRIMARY KEY". -/
theorem postgresIdColumn_empty_type :
    postgresIdColumn (some (PgType.new "")) ≠
      "id " ++ (PgType.new "").getPostgresType ++ " PRIMARY KEY" ∧
    postgresIdColumn (some (PgType.new "")) =
      "id BIGINT GENERATED ALWAYS AS IDENTITY PRIMARY KEY" :=
  ⟨by decide, rfl⟩

/-- Claim C5 as amended: with no supplied type the synthesized identity
column is "id BIGINT GENERATED ALWAYS AS IDENTITY PRIMARY KEY"; when a
type with a non-empty postgres type string is supplied, the column is
"id <its postgres type> PRIMARY KEY" (a type with an empty postgres type
string falls back to the default, since the JS `||` treats "" as falsy). -/
theorem postgresIdColumn_spec :
    postgresIdColumn none = "id BIGINT GENERATED ALWAYS AS IDENTITY PRIMARY KEY" ∧
    ∀ t : PgType, t.getPostgresType ≠ "" →
      postgresIdColumn (some t) = "id " ++ t.getPostgresType ++ " PRIMARY KEY" := by
  refine ⟨rfl, fun t h => ?_⟩
  simp [postgresIdColumn, jsOrElse, PgType.getPostgresType] at h ⊢
  simp [h]

/-- Witness for the amended C5 at the uuid descriptor. -/
theorem postgresIdColumn_spec_witness :
    (pgType.uuid ()).getPostgresType ≠ "" ∧
    postgresIdColumn (some (pgType.uuid ())) =
      "id " ++ (pgType.uuid ()).getPostgresType ++ " PRIMARY KEY" :=
  ⟨by decide, postgresIdColumn_spec.2 (pgType.uuid ()) (by decide)⟩

/-- Claim C6, counterexample: the fluent methods mutate the descriptor in
place.  Start from a heap whose reference 0 holds a fresh `pgType.text`
descriptor (nullable): after calling `notNull()` on reference 0, the
method returns the same reference 0 and the nullability observable on the
original descriptor has changed, contradicting immutability. -/
theorem notNull_mutates :
    (Heap.notNullM (fun _ => pgType.text ()) 0).2 = 0 ∧
    ¬ ((Heap.notNullM (fun _ => pgType.text ()) 0).1 0).getNullable =
        ((fun _ => pgType.text ()) 0 : PgType).getNullable :=
  ⟨rfl, by decide⟩

/-- Claim C6 as amended: `notNull()` and `nullable()` toggle the internal
mutable `_nullable` flag on the receiver itself and return the same
reference (`this`), so after the call the nullability observable on the
original descriptor is false resp. true; the postgres type string is
unchanged. -/
theorem notNullM_nullableM_spec (h : Heap) (r : Nat) :
    (Heap.notNullM h r).2 = r ∧
    ((Heap.notNullM h r).1 r).getNullable = false ∧
    ((Heap.notNullM h r).1 r).getPostgresType = (h r).getPostgresType ∧
    (Heap.nullableM h r).2 = r ∧
    ((Heap.nullableM h r).1 r).getNullable = true ∧
    ((Heap.nullableM h r).1 r).getPostgresType = (h r).getPostgresType := by
  refine ⟨rfl, ?_, ?_, rfl, ?_, ?_⟩ <;>
    simp [Heap.notNullM, Heap.nullableM, Heap.update, PgType.notNull,
      PgType.nullable, PgType.getNullable, PgType.getPostgresType]

/-- Claim C7: when the optional CLI inputs are omitted, the core entry
point receives the defaults: empty ignore-glob list, verbose false,
dry-run false (and the hard-coded alwaysPrintExecutionGraph true); the
directory argument is always required and passed through. -/
theorem commandHandler_defaults (d : String) :
    commandHandler d none none none =
      { directory := d, ignoreGlob := [], verbose := false
      , alwaysPrintExecutionGraph := true, dryRun := false } :=
  rfl

/-- Claim C8: `valueToPostgresType` fails exactly on functions and
symbols; on every other value it succeeds with one of the seven result
strings, and a bigint value succeeds with "BIGINT". -/
theorem valueToPostgresType_total (v : JSValue) :
    ((∃ e, valueToPostgresType v = .error e) ↔ (v = .function ∨ v = .symbol)) ∧
    (∀ s, valueToPostgresType v = .ok s →
      s ∈ ["TEXT", "TIMESTAMP WITH TIME ZONE", "JSONB", "BIGINT", "INTEGER",
           "DOUBLE PRECISION", "BOOLEAN"]) ∧
    (∀ n : Int, valueToPostgresType (.bigint n) = .ok "BIGINT") := by
  refine ⟨?_, ?_, fun _ => rfl⟩
  · cases v with
    | number q =>
      constructor
      · rintro ⟨e, he⟩
        by_cases h1 : q.den = 1
        · by_cases h2 : -2147483648 ≤ q ∧ q ≤ 2147483647
          · simp [valueToPostgresType, h1, h2] at he
          · simp [valueToPostgresType, h1, h2] at he
        · simp [valueToPostgresType, h1] at he
      · rintro (h | h) <;> exact absurd h (by simp)
    | function => simp [valueToPostgresType]
    | symbol => simp [valueToPostgresType]
    | null => simp [valueToPostgresType]
    | undefined => simp [valueToPostgresType]
    | date => simp [valueToPostgresType]
    | object => simp [valueToPostgresType]
    | string s => simp [valueToPostgresType]
    | bigint n => simp [valueToPostgresType]
    | boolean b => simp [valueToPostgresType]
  · intro s hs
    cases v with
    | number q =>
      by_cases h1 : q.den = 1
      · by_cases h2 : -2147483648 ≤ q ∧ q ≤ 2147483647
        · simp [valueToPostgresType, h1, h2] at hs
          simp [← hs]
        · simp [valueToPostgresType, h1, h2] at hs
          simp [← hs]
      · simp [valueToPostgresType, h1] at hs
        simp [← hs]
    | function => simp [valueToPostgresType] at hs
    | symbol => simp [valueToPostgresType] at hs
    | null => simp [valueToPostgresType] at hs; simp [← hs]
    | undefined => simp [valueToPostgresType] at hs; simp [← hs]
    | date => simp [valueToPostgresType] at hs; simp [← hs]
    | object => simp [valueToPostgresType] at hs; simp [← hs]
    | string t => simp [valueToPostgresType] at hs; simp [← hs]
    | bigint n => simp [valueToPostgresType] at hs; simp [← hs]
    | boolean b => simp [valueToPostgresType] at hs; simp [← hs]

/-- Witness for C8 at the bigint value 5: it succeeds with "BIGINT",
and "BIGINT" is among the seven result strings. -/
theorem valueToPostgresType_total_witness :
    valueToPostgresType (.bigint 5) = .ok "BIGINT" ∧
    "BIGINT" ∈ ["TEXT", "TIMESTAMP WITH TIME ZONE", "JSONB", "BIGINT", "INTEGER",
        "DOUBLE PRECISION", "BOOLEAN"] :=
  ⟨rfl, (valueToPostgresType_total (.bigint 5)).2.1 "BIGINT" rfl⟩

/-- Claim C9: every factory in the `pgType` record constructs a
descriptor that is nullable by default; `notNull` yields nullability
false and `nullable` yields nullability true on any descriptor; and both
are idempotent with respect to `getNullable`. -/
theorem pgType_nullability_algebra :
    ((pgType.text ()).getNullable = true ∧
     (pgType.integer ()).getNullable = true ∧
     (pgType.boolean ()).getNullable = true ∧
     (pgType.date ()).getNullable = true ∧
     (pgType.dateTime ()).getNullable = true ∧
     (pgType.bigint ()).getNullable = true ∧
     (pgType.smallint ()).getNullable = true ∧
     (pgType.real ()).getNullable = true ∧
     (pgType.doublePrecision ()).getNullable = true ∧
     (pgType.smallserial ()).getNullable = true ∧
     (pgType.serial ()).getNullable = true ∧
     (pgType.bigserial ()).getNullable = true ∧
     (pgType.numeric ()).getNullable = true ∧
     (pgType.decimal ()).getNullable = true ∧
     (pgType.money ()).getNullable = true ∧
     (pgType.time ()).getNullable = true ∧
     (pgType.interval ()).getNullable = true ∧
     (pgType.point ()).getNullable = true ∧
     (pgType.line ()).getNullable = true ∧
     (pgType.lseg ()).getNullable = true ∧
     (pgType.box ()).getNullable = true ∧
     (pgType.polygon ()).getNullable = true ∧
     (pgType.circle ()).getNullable = true ∧
     (pgType.inet ()).getNullable = true ∧
     (pgType.cidr ()).getNullable = true ∧
     (pgType.macaddr ()).getNullable = true ∧
     (pgType.tsvector ()).getNullable = true ∧
     (pgType.tsquery ()).getNullable = true ∧
     (pgType.uuid ()).getNullable = true ∧
     (pgType.json ()).getNullable = true ∧
     (pgType.jsonb ()).getNullable = true ∧
     (pgType.xml ()).getNullable = true ∧
     (pgType.bytea ()).getNullable = true) ∧
    (∀ n : Nat, (pgType.char n).getNullable = true ∧
      (pgType.varchar n).getNullable = true) ∧
    (∀ t : PgType, t.notNull.getNullable = false ∧
      t.nullable.getNullable = true) ∧
    (∀ t : PgType,
      t.notNull.notNull.getNullable = t.notNull.getNullable ∧
      t.nullable.nullable.getNullable = t.nullable.getNullable) :=
  ⟨by decide, fun _ => ⟨rfl, rfl⟩, fun _ => ⟨rfl, rfl⟩, fun _ => ⟨rfl, rfl⟩⟩

/-- Claim C10: `toString` is the postgres type string followed by a
single trailing space when the descriptor is nullable, and followed by
" NOT NULL" when it is not. -/
theorem pgType_toString_spec (t : PgType) :
    (t.getNullable = true → PgType.toString t = t.getPostgresType ++ " ") ∧
    (t.getNullable = false → PgType.toString t = t.getPostgresType ++ " NOT NULL") := by
  cases t with
  | mk nb ty =>
    cases nb <;>
      simp [PgType.toString, PgType.getNullable, PgType.getPostgresType]

/-- Witness for C10 at the text descriptor, which is nullable. -/
theorem pgType_toString_spec_witness :
    (pgType.text ()).getNullable = true ∧
    PgType.toString (pgType.text ()) = (pgType.text ()).getPostgresType ++ " " :=
  ⟨rfl, (pgType_toString_spec (pgType.text ())).1 rfl⟩
